import Mathlib

/-!
Shallow embedding of the mentorship web application (src/app.py).

The application state is a relational store with three tables (user,
mentorship_request, message); each Flask route handler becomes a Lean
function from the current store (plus the authenticated caller and the
form fields) to a result and an updated store.  Machine-level concerns
(HTTP, templates, sessions) are out of scope; the embedded functions
mirror the handlers' validation, authorization and row mutations.
-/

namespace Mentorship

/-- Error taxonomy of the spec (section 7): validation, conflict,
authentication, authorization, not-found. -/
inductive Err where
  | validationError
  | conflictError
  | authError
  | authorizationError
  | notFoundError
deriving DecidableEq

/-- Row of the `user` table (src/app.py lines 20-29).  `bio`, `skills` and
`availability` play no role in the claims and are omitted; timestamps are
modelled as naturals. -/
structure User where
  id : Nat
  name : String
  email : String
  role : String
  password_hash : String
  created_at : Nat
deriving DecidableEq

/-- Row of the `mentorship_request` table (src/app.py lines 45-53). -/
structure MentorshipRequest where
  id : Nat
  mentor_id : Nat
  mentee_id : Nat
  goal : String
  status : String
  created_at : Nat
deriving DecidableEq

/-- Row of the `message` table (src/app.py lines 56-63). -/
structure Message where
  id : Nat
  mentorship_id : Nat
  sender_id : Nat
  body : String
  created_at : Nat
deriving DecidableEq

/-- The relational store: the three tables plus the primary-key counters
the storage engine uses to assign fresh ids. -/
structure DB where
  users : List User
  requests : List MentorshipRequest
  messages : List Message
  next_user_id : Nat
  next_request_id : Nat
  next_message_id : Nat
deriving DecidableEq

/-- The external password-hashing primitive (passlib `pbkdf2_sha256`,
src/app.py lines 38-42).  `hash` takes the per-user salt explicitly (passlib
draws it at random on each call); `verify` checks a password against a
stored hash. -/
structure KDF where
  hash : String → String → String
  verify : String → String → Bool

/-- Python `str.strip()`: drop whitespace from both ends. -/
def py_strip (s : String) : String :=
  String.mk (((s.data.dropWhile Char.isWhitespace).reverse.dropWhile
    Char.isWhitespace).reverse)

/-- Python `str.lower()`: lowercase every character. -/
def py_lower (s : String) : String :=
  String.mk (s.data.map Char.toLower)

/-- `User.query.filter_by(email=email).first()` (src/app.py lines 94, 115). -/
def find_user_by_email (db : DB) (email : String) : Option User :=
  db.users.find? (fun u => u.email == email)

/-- `User.query.get(uid)` (src/app.py line 186). -/
def find_user_by_id (db : DB) (uid : Nat) : Option User :=
  db.users.find? (fun u => u.id == uid)

/-- `MentorshipRequest.query.get_or_404(request_id)`, the lookup part
(src/app.py lines 206, 220, 234, 248). -/
def find_request (db : DB) (rid : Nat) : Option MentorshipRequest :=
  db.requests.find? (fun r => r.id == rid)

/-- The row `User(name=name, email=email, role=role)` with
`set_password(password)` applied, as inserted by `register`
(src/app.py lines 98-99). -/
def register_row (kdf : KDF) (salt : String) (db : DB) (now : Nat)
    (name email role password : String) : User :=
  { id := db.next_user_id, name := py_strip name, email := py_lower (py_strip email),
    role := role, password_hash := kdf.hash salt password, created_at := now }

/-- POST branch of the `register` handler (src/app.py lines 80-104).
`name` is stripped, `email` is stripped and lowercased, `role` and
`password` are taken as submitted (a missing `role` is modelled as "").
Returns the created user (or the error) together with the updated store. -/
def register (kdf : KDF) (salt : String) (db : DB) (now : Nat)
    (name email role password : String) : Except Err User × DB :=
  if py_strip name = "" ∨ py_lower (py_strip email) = "" ∨ role = "" ∨ password = "" then
    (.error .validationError, db)
  else if ¬ (role = "mentor" ∨ role = "mentee") then
    (.error .validationError, db)
  else if (find_user_by_email db (py_lower (py_strip email))).isSome then
    (.error .conflictError, db)
  else
    (.ok (register_row kdf salt db now name email role password),
      { db with users := db.users ++ [register_row kdf salt db now name email role password],
                next_user_id := db.next_user_id + 1 })

/-- POST branch of the `login` handler (src/app.py lines 109-123): normalize
the email, look up the first matching user, verify the password against the
stored hash; any miss yields the same "Invalid email or password" outcome. -/
def login (kdf : KDF) (db : DB) (email password : String) : Except Err User :=
  match find_user_by_email db (py_lower (py_strip email)) with
  | none => .error .authError
  | some u => if kdf.verify password u.password_hash then .ok u else .error .authError

/-- `mentorship.status = s; db.session.commit()`: the row with primary key
`rid` gets status `s`, every other row is untouched. -/
def set_status (db : DB) (rid : Nat) (s : String) : DB :=
  { db with requests :=
      db.requests.map (fun r => if r.id == rid then { r with status := s } else r) }

/-- `accept_request` handler (src/app.py lines 203-214). -/
def accept_request (db : DB) (caller : User) (rid : Nat) : Except Err Unit × DB :=
  match find_request db rid with
  | none => (.error .notFoundError, db)
  | some req =>
    if req.mentor_id ≠ caller.id then (.error .authorizationError, db)
    else (.ok (), set_status db rid "accepted")

/-- `decline_request` handler (src/app.py lines 217-228). -/
def decline_request (db : DB) (caller : User) (rid : Nat) : Except Err Unit × DB :=
  match find_request db rid with
  | none => (.error .notFoundError, db)
  | some req =>
    if req.mentor_id ≠ caller.id then (.error .authorizationError, db)
    else (.ok (), set_status db rid "declined")

/-- `complete_request` handler (src/app.py lines 231-242). -/
def complete_request (db : DB) (caller : User) (rid : Nat) : Except Err Unit × DB :=
  match find_request db rid with
  | none => (.error .notFoundError, db)
  | some req =>
    if caller.id ≠ req.mentor_id ∧ caller.id ≠ req.mentee_id then
      (.error .authorizationError, db)
    else (.ok (), set_status db rid "completed")

/-- The row inserted by a successful mentorship-request creation
(src/app.py line 188): mentor from the looked-up user, mentee from the
caller, `status` left to its column default "pending". -/
def request_row (db : DB) (now : Nat) (caller mentor : User) (goal : String) :
    MentorshipRequest :=
  { id := db.next_request_id, mentor_id := mentor.id, mentee_id := caller.id,
    goal := py_strip goal, status := "pending", created_at := now }

/-- POST branch of the `mentorships` handler (src/app.py lines 177-194).
The form supplies the mentor selection (`mentor_id`, modelled as an already
parsed optional id) and `goal`; a missing selection and a blank trimmed goal
are rejected first, then the caller's role, then the mentor lookup. -/
def create_mentorship (db : DB) (now : Nat) (caller : User)
    (mentor_id : Option Nat) (goal : String) : Except Err MentorshipRequest × DB :=
  match mentor_id with
  | none => (.error .validationError, db)
  | some mid =>
    if py_strip goal = "" then (.error .validationError, db)
    else if caller.role ≠ "mentee" then (.error .authorizationError, db)
    else
      match find_user_by_id db mid with
      | none => (.error .validationError, db)
      | some mentor =>
        if mentor.role = "mentor" then
          (.ok (request_row db now caller mentor goal),
            { db with requests := db.requests ++ [request_row db now caller mentor goal],
                      next_request_id := db.next_request_id + 1 })
        else (.error .validationError, db)

/-- The message row inserted by the POST branch of `mentorship_messages`
(src/app.py line 256): the stored body is the trimmed form field. -/
def message_row (db : DB) (now : Nat) (caller : User) (req : MentorshipRequest)
    (body : String) : Message :=
  { id := db.next_message_id, mentorship_id := req.id, sender_id := caller.id,
    body := py_strip body, created_at := now }

/-- POST branch of the `mentorship_messages` handler (src/app.py lines
245-262): look up the request, reject outsiders, reject a blank trimmed
body, otherwise append one message timestamped by the server. -/
def post_message (db : DB) (now : Nat) (caller : User) (rid : Nat)
    (body : String) : Except Err Message × DB :=
  match find_request db rid with
  | none => (.error .notFoundError, db)
  | some req =>
    if caller.id ≠ req.mentor_id ∧ caller.id ≠ req.mentee_id then
      (.error .authorizationError, db)
    else if py_strip body = "" then (.error .validationError, db)
    else
      (.ok (message_row db now caller req body),
        { db with messages := db.messages ++ [message_row db now caller req body],
                  next_message_id := db.next_message_id + 1 })

/-- Ordering used by the request listings: `order_by(created_at.desc())`
(src/app.py lines 141, 199). -/
def req_desc (a b : MentorshipRequest) : Prop := b.created_at ≤ a.created_at

/-- Ordering used by the message listing: `order_by(created_at.asc())`
(src/app.py line 264). -/
def msg_asc (a b : Message) : Prop := a.created_at ≤ b.created_at

instance : DecidableRel req_desc := fun a b => Nat.decLe b.created_at a.created_at

instance : DecidableRel msg_asc := fun a b => Nat.decLe a.created_at b.created_at

instance : IsTotal MentorshipRequest req_desc :=
  ⟨fun a b => Nat.le_total b.created_at a.created_at⟩

instance : IsTrans MentorshipRequest req_desc :=
  ⟨fun _ _ _ h1 h2 => Nat.le_trans h2 h1⟩

instance : IsTotal Message msg_asc := ⟨fun a b => Nat.le_total a.created_at b.created_at⟩

instance : IsTrans Message msg_asc := ⟨fun _ _ _ h1 h2 => Nat.le_trans h1 h2⟩

/-- The `my_requests` query of the `dashboard` and `mentorships` handlers
(src/app.py lines 139-141, 197-199): requests where the caller is mentor or
mentee, ordered by creation time descending. -/
def my_requests (db : DB) (u : User) : List MentorshipRequest :=
  (db.requests.filter (fun r => r.mentor_id == u.id || r.mentee_id == u.id)).insertionSort req_desc

/-- The message listing of `mentorship_messages` (src/app.py line 264):
the request's messages ordered by creation time ascending. -/
def list_messages (db : DB) (rid : Nat) : List Message :=
  (db.messages.filter (fun m => m.mentorship_id == rid)).insertionSort msg_asc

/-- Modelled from the spec: the administrative deletion path for a
`MentorshipRequest` has no route in src/app.py; only the cascade is
declared there (line 53, `cascade="all, delete-orphan"`).  Deleting the
request removes its row and, by the cascade, every message whose
`mentorship_id` references it. -/
def delete_request (db : DB) (rid : Nat) : DB :=
  { db with requests := db.requests.filter (fun r => ! (r.id == rid)),
            messages := db.messages.filter (fun m => ! (m.mentorship_id == rid)) }

/-- Posting a sequence of messages to one request: each element carries the
server time of the post, the authenticated sender, and the submitted body. -/
def post_all (db : DB) (rid : Nat) : List (Nat × User × String) → DB
  | [] => db
  | (now, sender, body) :: rest =>
    post_all (post_message db now sender rid body).2 rid rest

/-- A concrete KDF instance for evaluating the model: hashes are
`salt ++ ":" ++ password` and verification checks against the salt "s0". -/
def demo_kdf : KDF :=
  { hash := fun salt password => salt ++ ":" ++ password,
    verify := fun password h => h == "s0:" ++ password }

def mentor_u : User :=
  { id := 1, name := "Bob", email := "bob@example.com", role := "mentor",
    password_hash := "s0:pw1", created_at := 0 }

def mentee_u : User :=
  { id := 2, name := "Ann", email := "ann@example.com", role := "mentee",
    password_hash := "s0:pw2", created_at := 0 }

def other_u : User :=
  { id := 3, name := "Eve", email := "eve@example.com", role := "mentee",
    password_hash := "s0:pw3", created_at := 0 }

/-- A request from Ann to Bob that was already declined. -/
def declined_req : MentorshipRequest :=
  { id := 10, mentor_id := 1, mentee_id := 2, goal := "learn X",
    status := "declined", created_at := 5 }

def demo_db : DB :=
  { users := [mentor_u, mentee_u, other_u], requests := [declined_req],
    messages := [], next_user_id := 4, next_request_id := 11, next_message_id := 1 }

def empty_db : DB :=
  { users := [], requests := [], messages := [],
    next_user_id := 1, next_request_id := 1, next_message_id := 1 }

/-- A second request, between Bob and Eve, used to check cross-request
isolation. -/
def other_req : MentorshipRequest :=
  { id := 11, mentor_id := 1, mentee_id := 3, goal := "learn Z",
    status := "accepted", created_at := 6 }

def msg_a : Message :=
  { id := 100, mentorship_id := 10, sender_id := 2, body := "hi", created_at := 6 }

def msg_b : Message :=
  { id := 101, mentorship_id := 11, sender_id := 1, body := "yo", created_at := 7 }

/-- `demo_db` extended with a second request and one message on each. -/
def demo_db2 : DB :=
  { users := [mentor_u, mentee_u, other_u], requests := [declined_req, other_req],
    messages := [msg_a, msg_b], next_user_id := 4, next_request_id := 12,
    next_message_id := 102 }

end Mentorship

namespace Mentorship

/-- Helper: a successful `register` implies every guard passed, and exposes the
shape of the inserted row. -/
theorem register_ok_inv {kdf : KDF} {salt : String} {db db1 : DB} {now : Nat}
    {name email role password : String} {u : User}
    (h : register kdf salt db now name email role password = (.ok u, db1)) :
    py_strip name ≠ "" ∧ py_lower (py_strip email) ≠ "" ∧ (role = "mentor" ∨ role = "mentee") ∧
    password ≠ "" ∧ find_user_by_email db (py_lower (py_strip email)) = none ∧
    u = register_row kdf salt db now name email role password ∧
    db1 = { db with users := db.users ++ [u], next_user_id := db.next_user_id + 1 } := by
  unfold register at h
  split_ifs at h with h1 h2 h3
  · exact absurd (congrArg Prod.fst h) (by simp)
  · exact absurd (congrArg Prod.fst h) (by simp)
  · push_neg at h1
    obtain ⟨hn, he, hr, hp⟩ := h1
    simp only [Prod.mk.injEq, Except.ok.injEq] at h
    obtain ⟨hu, hdb⟩ := h
    subst hu
    exact ⟨hn, he, h2, hp, Option.not_isSome_iff_eq_none.mp h3,
      rfl, hdb.symm⟩
  · exact absurd (congrArg Prod.fst h) (by simp)

/-- Helper: a request found by id has that id. -/
theorem find_request_id {db : DB} {rid : Nat} {req : MentorshipRequest}
    (h : find_request db rid = some req) : req.id = rid := by
  have := List.find?_some h
  simpa using this

/-- Helper: updating the status of row `rid` commutes with looking up `rid`. -/
theorem find?_status_map (l : List MentorshipRequest) (rid : Nat) (s : String) :
    (l.map (fun r => if r.id == rid then { r with status := s } else r)).find?
        (fun r => r.id == rid)
      = (l.find? (fun r => r.id == rid)).map (fun r => { r with status := s }) := by
  rw [List.find?_map]
  have hcomp : ((fun r : MentorshipRequest => r.id == rid) ∘
      (fun r => if r.id == rid then { r with status := s } else r))
      = (fun r : MentorshipRequest => r.id == rid) := by
    funext r
    by_cases h : r.id = rid <;> simp [Function.comp, h]
  rw [hcomp]
  cases hf : l.find? (fun r => r.id == rid) with
  | none => rfl
  | some r =>
    have hp := List.find?_some hf
    simp only [beq_iff_eq] at hp
    simp [hp]

/-- Helper: lookup after `set_status` returns the found row with its status
replaced. -/
theorem find_request_set_status (db : DB) (rid : Nat) (s : String) :
    find_request (set_status db rid s) rid
      = (find_request db rid).map (fun r => { r with status := s }) :=
  find?_status_map db.requests rid s

/-- C1: for every stored mentorship request and every authenticated caller,
`accept_request` and `decline_request` answer `authorizationError` whenever
the caller is not the request's mentor, `complete_request` answers
`authorizationError` whenever the caller is neither the mentor nor the
mentee, and in each such failure the store — hence the request's status —
is unchanged. -/
theorem unauthorized_transition_rejected (db : DB) (caller : User) (rid : Nat)
    (req : MentorshipRequest) (hreq : find_request db rid = some req) :
    (req.mentor_id ≠ caller.id →
      accept_request db caller rid = (.error .authorizationError, db) ∧
      decline_request db caller rid = (.error .authorizationError, db)) ∧
    (caller.id ≠ req.mentor_id → caller.id ≠ req.mentee_id →
      complete_request db caller rid = (.error .authorizationError, db)) := by
  refine ⟨fun hm => ⟨?_, ?_⟩, fun h1 h2 => ?_⟩
  · simp [accept_request, hreq, hm]
  · simp [decline_request, hreq, hm]
  · simp [complete_request, hreq, h1, h2]

/-- Witness for C1: Eve (user 3) is neither mentor nor mentee of request 10,
and all three transitions reject her, leaving the store untouched. -/
theorem unauthorized_transition_rejected_witness :
    accept_request demo_db other_u 10 = (.error .authorizationError, demo_db) ∧
    decline_request demo_db other_u 10 = (.error .authorizationError, demo_db) ∧
    complete_request demo_db other_u 10 = (.error .authorizationError, demo_db) := by
  have h := unauthorized_transition_rejected demo_db other_u 10 declined_req (by rfl)
  exact ⟨(h.1 (by decide)).1, (h.1 (by decide)).2, h.2 (by decide) (by decide)⟩

/-- C2: for every stored request and authorized caller (the mentor for
accept/decline, either participant for complete), the transition succeeds
and rewrites the status to accepted / declined / completed with no guard on
the current status. -/
theorem authorized_transition_unconditional (db : DB) (caller : User) (rid : Nat)
    (req : MentorshipRequest) (hreq : find_request db rid = some req) :
    (req.mentor_id = caller.id →
      (accept_request db caller rid).1 = .ok () ∧
      find_request (accept_request db caller rid).2 rid
        = some { req with status := "accepted" } ∧
      (decline_request db caller rid).1 = .ok () ∧
      find_request (decline_request db caller rid).2 rid
        = some { req with status := "declined" }) ∧
    ((caller.id = req.mentor_id ∨ caller.id = req.mentee_id) →
      (complete_request db caller rid).1 = .ok () ∧
      find_request (complete_request db caller rid).2 rid
        = some { req with status := "completed" }) := by
  constructor
  · intro hm
    have ha : accept_request db caller rid = (.ok (), set_status db rid "accepted") := by
      simp [accept_request, hreq, hm]
    have hd : decline_request db caller rid = (.ok (), set_status db rid "declined") := by
      simp [decline_request, hreq, hm]
    refine ⟨by rw [ha], ?_, by rw [hd], ?_⟩
    · rw [ha]
      simp [find_request_set_status, hreq]
    · rw [hd]
      simp [find_request_set_status, hreq]
  · intro hor
    have hc : complete_request db caller rid = (.ok (), set_status db rid "completed") := by
      have hcond : ¬ (caller.id ≠ req.mentor_id ∧ caller.id ≠ req.mentee_id) := by
        rcases hor with h | h
        · exact fun hand => hand.1 h
        · exact fun hand => hand.2 h
      simp [complete_request, hreq, hcond]
    refine ⟨by rw [hc], ?_⟩
    rw [hc]
    simp [find_request_set_status, hreq]

/-- Witness for C2: Bob (the mentor) accepts request 10 even though it is
already declined, and Ann (the mentee) completes it. -/
theorem authorized_transition_unconditional_witness :
    (accept_request demo_db mentor_u 10).1 = .ok () ∧
    find_request (accept_request demo_db mentor_u 10).2 10
      = some { declined_req with status := "accepted" } ∧
    (complete_request demo_db mentee_u 10).1 = .ok () ∧
    find_request (complete_request demo_db mentee_u 10).2 10
      = some { declined_req with status := "completed" } := by
  have ha := authorized_transition_unconditional demo_db mentor_u 10 declined_req (by rfl)
  have hb := authorized_transition_unconditional demo_db mentee_u 10 declined_req (by rfl)
  exact ⟨(ha.1 (by decide)).1, (ha.1 (by decide)).2.1,
    (hb.2 (Or.inr (by decide))).1, (hb.2 (Or.inr (by decide))).2⟩

/-- C3 counterexample: Bob's role is "mentor", not "mentee", yet creating a
request with a blank goal answers `validationError`, not the
`authorizationError` the claim requires for every non-mentee caller — the
handler checks the blank fields before the caller's role. -/
theorem create_blank_goal_not_authorization :
    mentor_u.role ≠ "mentee" ∧
    (create_mentorship demo_db 7 mentor_u (some 1) "").1 = .error .validationError ∧
    Err.validationError ≠ Err.authorizationError :=
  ⟨by decide, by rfl, by decide⟩

/-- C3 (amended): a missing mentor selection or a blank trimmed goal is
rejected with `validationError` first; otherwise a caller whose role is not
"mentee" is rejected with `authorizationError`; otherwise a `mentor_id` that
does not resolve to an existing user with role "mentor" is rejected with
`validationError`; otherwise exactly one new request is inserted and its
status is "pending". -/
theorem create_mentorship_spec (db : DB) (now : Nat) (caller : User)
    (mid : Option Nat) (goal : String) :
    ((mid = none ∨ py_strip goal = "") →
      create_mentorship db now caller mid goal = (.error .validationError, db)) ∧
    (∀ m, mid = some m → py_strip goal ≠ "" → caller.role ≠ "mentee" →
      create_mentorship db now caller mid goal = (.error .authorizationError, db)) ∧
    (∀ m, mid = some m → py_strip goal ≠ "" → caller.role = "mentee" →
      find_user_by_id db m = none →
      create_mentorship db now caller mid goal = (.error .validationError, db)) ∧
    (∀ m u, mid = some m → py_strip goal ≠ "" → caller.role = "mentee" →
      find_user_by_id db m = some u → u.role ≠ "mentor" →
      create_mentorship db now caller mid goal = (.error .validationError, db)) ∧
    (∀ m u, mid = some m → py_strip goal ≠ "" → caller.role = "mentee" →
      find_user_by_id db m = some u → u.role = "mentor" →
      (create_mentorship db now caller mid goal).1
        = .ok (request_row db now caller u goal) ∧
      (create_mentorship db now caller mid goal).2.requests
        = db.requests ++ [request_row db now caller u goal] ∧
      (request_row db now caller u goal).status = "pending") := by
  refine ⟨?_, ?_, ?_, ?_, ?_⟩
  · rintro (hnone | hblank)
    · subst hnone
      rfl
    · cases mid with
      | none => rfl
      | some m => simp [create_mentorship, hblank]
  · rintro m rfl hg hrole
    simp [create_mentorship, hg, hrole]
  · rintro m rfl hg hrole hfind
    simp [create_mentorship, hg, hrole, hfind]
  · rintro m u rfl hg hrole hfind hur
    simp [create_mentorship, hg, hrole, hfind, hur]
  · rintro m u rfl hg hrole hfind hur
    refine ⟨?_, ?_, rfl⟩ <;> simp [create_mentorship, hg, hrole, hfind, hur]

/-- Witness for C3 (amended): Ann (a mentee) successfully creates a pending
request to Bob; Bob (a mentor) is turned away with `authorizationError` when
the fields are present. -/
theorem create_mentorship_spec_witness :
    (create_mentorship demo_db 7 mentee_u (some 1) "learn Y").1
      = .ok (request_row demo_db 7 mentee_u mentor_u "learn Y") ∧
    (create_mentorship demo_db 7 mentee_u (some 1) "learn Y").2.requests
      = demo_db.requests ++ [request_row demo_db 7 mentee_u mentor_u "learn Y"] ∧
    (request_row demo_db 7 mentee_u mentor_u "learn Y").status = "pending" ∧
    create_mentorship demo_db 7 mentor_u (some 1) "learn Y"
      = (.error .authorizationError, demo_db) := by
  have h := create_mentorship_spec demo_db 7 mentee_u (some 1) "learn Y"
  have h2 := create_mentorship_spec demo_db 7 mentor_u (some 1) "learn Y"
  obtain ⟨ha, hb, hc⟩ :=
    h.2.2.2.2 1 mentor_u rfl (by decide) (by decide) (by rfl) (by decide)
  exact ⟨ha, hb, hc, h2.2.1 1 rfl (by decide) (by decide)⟩

/-- C8: posting to an existing request is rejected with
`authorizationError` when the caller is neither the mentor nor the mentee,
and with `validationError` when a participant submits a body that trims to
empty; in both cases the store — hence the message table — is unchanged. -/
theorem post_message_rejections (db : DB) (now : Nat) (caller : User)
    (rid : Nat) (body : String) (req : MentorshipRequest)
    (hreq : find_request db rid = some req) :
    (caller.id ≠ req.mentor_id → caller.id ≠ req.mentee_id →
      post_message db now caller rid body = (.error .authorizationError, db)) ∧
    ((caller.id = req.mentor_id ∨ caller.id = req.mentee_id) → py_strip body = "" →
      post_message db now caller rid body = (.error .validationError, db)) := by
  constructor
  · intro h1 h2
    simp [post_message, hreq, h1, h2]
  · intro hor hb
    have hcond : ¬ (caller.id ≠ req.mentor_id ∧ caller.id ≠ req.mentee_id) := by
      rcases hor with h | h
      · exact fun hand => hand.1 h
      · exact fun hand => hand.2 h
    simp [post_message, hreq, hcond, hb]

/-- Witness for C8: Eve cannot post to request 10, and Ann's all-whitespace
message is rejected; the store is unchanged both times. -/
theorem post_message_rejections_witness :
    post_message demo_db 9 other_u 10 "hi" = (.error .authorizationError, demo_db) ∧
    post_message demo_db 9 mentee_u 10 "   " = (.error .validationError, demo_db) := by
  have h1 := post_message_rejections demo_db 9 other_u 10 "hi" declined_req (by rfl)
  have h2 := post_message_rejections demo_db 9 mentee_u 10 "   " declined_req (by rfl)
  exact ⟨h1.1 (by decide) (by decide), h2.2 (Or.inr (by decide)) (by decide)⟩

/-- C10: every request created through `create_mentorship` records the
authenticated caller as its mentee — the form supplies only the mentor
selection and the goal — and it is the only row inserted. -/
theorem created_request_mentee_is_caller (db : DB) (now : Nat) (caller : User)
    (mid : Option Nat) (goal : String) (req : MentorshipRequest) (db1 : DB)
    (h : create_mentorship db now caller mid goal = (.ok req, db1)) :
    req.mentee_id = caller.id ∧ db1.requests = db.requests ++ [req] := by
  cases mid with
  | none => exact absurd (congrArg Prod.fst h) (by simp [create_mentorship])
  | some m =>
    simp only [create_mentorship] at h
    by_cases h1 : py_strip goal = ""
    · rw [if_pos h1] at h
      exact absurd (congrArg Prod.fst h) (by simp)
    · rw [if_neg h1] at h
      by_cases h2 : caller.role ≠ "mentee"
      · rw [if_pos h2] at h
        exact absurd (congrArg Prod.fst h) (by simp)
      · rw [if_neg h2] at h
        cases hf : find_user_by_id db m with
        | none =>
          rw [hf] at h
          exact absurd (congrArg Prod.fst h) (by simp)
        | some mentor =>
          rw [hf] at h
          dsimp only at h
          by_cases h3 : mentor.role = "mentor"
          · rw [if_pos h3] at h
            simp only [Prod.mk.injEq, Except.ok.injEq] at h
            obtain ⟨hrow, hdb⟩ := h
            subst hrow
            exact ⟨rfl, by rw [← hdb]⟩
          · rw [if_neg h3] at h
            exact absurd (congrArg Prod.fst h) (by simp)

/-- Helper: the membership form of the duplicate-email guard. -/
theorem find_user_by_email_isSome (db : DB) (e : String) :
    (find_user_by_email db e).isSome ↔ ∃ u ∈ db.users, u.email = e := by
  unfold find_user_by_email
  rw [List.find?_isSome]
  constructor
  · rintro ⟨u, hu, he⟩
    exact ⟨u, hu, by simpa using he⟩
  · rintro ⟨u, hu, he⟩
    exact ⟨u, hu, by simpa using he⟩

/-- C4: `register` answers `validationError` on a blank required field or an
invalid role, `conflictError` when the normalized email is already stored
(in particular when a previously registered email is resubmitted in any
case), adds no user row on any failure, and on success appends exactly one
row storing the salted KDF output instead of the plaintext password. -/
theorem register_spec (kdf : KDF) (salt : String) (db : DB) (now : Nat)
    (name email role password : String) :
    ((py_strip name = "" ∨ py_lower (py_strip email) = "" ∨ role = "" ∨ password = "") →
      register kdf salt db now name email role password = (.error .validationError, db)) ∧
    (py_strip name ≠ "" → py_lower (py_strip email) ≠ "" → role ≠ "" → password ≠ "" →
      ¬ (role = "mentor" ∨ role = "mentee") →
      register kdf salt db now name email role password = (.error .validationError, db)) ∧
    (py_strip name ≠ "" → py_lower (py_strip email) ≠ "" → role ≠ "" → password ≠ "" →
      (role = "mentor" ∨ role = "mentee") →
      (∃ u0 ∈ db.users, u0.email = py_lower (py_strip email)) →
      register kdf salt db now name email role password = (.error .conflictError, db)) ∧
    (py_strip name ≠ "" → py_lower (py_strip email) ≠ "" → role ≠ "" → password ≠ "" →
      (role = "mentor" ∨ role = "mentee") →
      (∀ u0 ∈ db.users, u0.email ≠ py_lower (py_strip email)) →
      register kdf salt db now name email role password
        = (.ok (register_row kdf salt db now name email role password),
           { db with users := db.users ++ [register_row kdf salt db now name email role password],
                     next_user_id := db.next_user_id + 1 }) ∧
      (register_row kdf salt db now name email role password).password_hash
        = kdf.hash salt password ∧
      (kdf.hash salt password ≠ password →
        (register_row kdf salt db now name email role password).password_hash ≠ password)) ∧
    (∀ (u : User) (db1 : DB) (salt2 : String) (now2 : Nat)
        (name2 email2 role2 pw2 : String),
      register kdf salt db now name email role password = (.ok u, db1) →
      py_lower (py_strip email2) = py_lower (py_strip email) →
      py_strip name2 ≠ "" → (role2 = "mentor" ∨ role2 = "mentee") → pw2 ≠ "" →
      register kdf salt2 db1 now2 name2 email2 role2 pw2 = (.error .conflictError, db1)) := by
  refine ⟨?_, ?_, ?_, ?_, ?_⟩
  · intro h
    unfold register
    rw [if_pos h]
  · intro h1 h2 h3 h4 h5
    unfold register
    rw [if_neg (by tauto), if_pos h5]
  · intro h1 h2 h3 h4 h5 hex
    have hsome : (find_user_by_email db (py_lower (py_strip email))).isSome :=
      (find_user_by_email_isSome db (py_lower (py_strip email))).mpr hex
    unfold register
    rw [if_neg (by tauto), if_neg (not_not_intro h5), if_pos hsome]
  · intro h1 h2 h3 h4 h5 hall
    have hnone : ¬ (find_user_by_email db (py_lower (py_strip email))).isSome = true := by
      rw [find_user_by_email_isSome db (py_lower (py_strip email))]
      rintro ⟨u0, hu0, he⟩
      exact hall u0 hu0 he
    constructor
    · unfold register
      rw [if_neg (by tauto), if_neg (not_not_intro h5), if_neg hnone]
    · exact ⟨rfl, fun hne => hne⟩
  · intro u db1 salt2 now2 name2 email2 role2 pw2 hok hnorm hn2 hr2 hp2
    obtain ⟨hn, he, hr, hp, hfind, hu, hdb1⟩ := register_ok_inv hok
    have hr2ne : role2 ≠ "" := by rcases hr2 with rfl | rfl <;> simp
    have he2 : py_lower (py_strip email2) ≠ "" := by rw [hnorm]; exact he
    have hsome : (find_user_by_email db1 (py_lower (py_strip email2))).isSome := by
      rw [find_user_by_email_isSome]
      refine ⟨u, ?_, ?_⟩
      · rw [hdb1]
        simp
      · rw [hnorm, hu]
        rfl
    unfold register
    rw [if_neg (by tauto), if_neg (not_not_intro hr2), if_pos hsome]

/-- Witness for C4: registering Ann on an empty store succeeds and stores
the salted hash; a blank role is rejected; re-registering the same email in
different case yields `conflictError` and no new row. -/
theorem register_spec_witness :
    register demo_kdf "s0" empty_db 1 "Ann" " Ann@Example.Com " "mentee" "pw"
      = (.ok (register_row demo_kdf "s0" empty_db 1 "Ann" " Ann@Example.Com " "mentee" "pw"),
         { empty_db with
             users := empty_db.users ++
               [register_row demo_kdf "s0" empty_db 1 "Ann" " Ann@Example.Com " "mentee" "pw"],
             next_user_id := empty_db.next_user_id + 1 }) ∧
    (register_row demo_kdf "s0" empty_db 1 "Ann" " Ann@Example.Com " "mentee" "pw").password_hash
      = demo_kdf.hash "s0" "pw" ∧
    register demo_kdf "s0" empty_db 1 "Bo" "x@y.z" "" "pw"
      = (.error .validationError, empty_db) ∧
    register demo_kdf "s1" { empty_db with
        users := empty_db.users ++
          [register_row demo_kdf "s0" empty_db 1 "Ann" " Ann@Example.Com " "mentee" "pw"],
        next_user_id := empty_db.next_user_id + 1 } 2 "Ann2" "ANN@EXAMPLE.COM" "mentee" "pw9"
      = (.error .conflictError,
         { empty_db with
             users := empty_db.users ++
               [register_row demo_kdf "s0" empty_db 1 "Ann" " Ann@Example.Com " "mentee" "pw"],
             next_user_id := empty_db.next_user_id + 1 }) := by
  have h := register_spec demo_kdf "s0" empty_db 1 "Ann" " Ann@Example.Com " "mentee" "pw"
  have hok := h.2.2.2.1 (by decide) (by decide) (by decide) (by decide)
    (Or.inr rfl) (by intro u0 hu0 he; simp [empty_db] at hu0)
  have hbad := (register_spec demo_kdf "s0" empty_db 1 "Bo" "x@y.z" "" "pw").1
    (Or.inr (Or.inr (Or.inl rfl)))
  have hconf := h.2.2.2.2
    (register_row demo_kdf "s0" empty_db 1 "Ann" " Ann@Example.Com " "mentee" "pw")
    { empty_db with
        users := empty_db.users ++
          [register_row demo_kdf "s0" empty_db 1 "Ann" " Ann@Example.Com " "mentee" "pw"],
        next_user_id := empty_db.next_user_id + 1 }
    "s1" 2 "Ann2" "ANN@EXAMPLE.COM" "mentee" "pw9"
    hok.1 (by decide) (by decide) (Or.inr rfl) (by decide)
  exact ⟨hok.1, hok.2.1, hbad, hconf⟩

/-- C5: after a successful registration the same (email, password) pair logs
in and returns that user, provided the KDF verifies its own hashes; and
`login` answers `authError` whenever no stored user has the normalized email
or the password fails verification against the stored hash. -/
theorem login_spec (kdf : KDF) (salt : String) (db db1 : DB) (now : Nat)
    (name email role password : String) (u : User) :
    (register kdf salt db now name email role password = (.ok u, db1) →
      kdf.verify password (kdf.hash salt password) = true →
      login kdf db1 email password = .ok u) ∧
    (∀ (db2 : DB) (e p : String),
      (find_user_by_email db2 (py_lower (py_strip e)) = none →
        login kdf db2 e p = .error .authError) ∧
      (∀ v, find_user_by_email db2 (py_lower (py_strip e)) = some v →
        kdf.verify p v.password_hash = false →
        login kdf db2 e p = .error .authError)) := by
  constructor
  · intro hok hv
    obtain ⟨hn, he, hr, hp, hfind, hu, hdb1⟩ := register_ok_inv hok
    have hfind1 : find_user_by_email db1 (py_lower (py_strip email)) = some u := by
      unfold find_user_by_email at hfind ⊢
      rw [hdb1]
      simp only [List.find?_append, hfind, Option.none_or]
      rw [List.find?_cons_of_pos]
      rw [hu]
      simp [register_row]
    unfold login
    rw [hfind1]
    rw [hu]
    simp only [register_row]
    rw [hv]
    rfl
  · intro db2 e p
    constructor
    · intro hnone
      unfold login
      rw [hnone]
    · intro v hsome hv
      unfold login
      rw [hsome]
      dsimp only
      rw [hv]
      rfl

/-- Witness for C5: Ann registers with "a@b.cd" and password "pw" and then
logs in; unknown emails and wrong passwords are turned away. -/
theorem login_spec_witness :
    login demo_kdf (register demo_kdf "s0" empty_db 1 "Ann" "a@b.cd" "mentee" "pw").2
        "a@b.cd" "pw"
      = .ok (register_row demo_kdf "s0" empty_db 1 "Ann" "a@b.cd" "mentee" "pw") ∧
    login demo_kdf demo_db "nobody@example.com" "pw" = .error .authError ∧
    login demo_kdf demo_db "bob@example.com" "wrong" = .error .authError := by
  have h := login_spec demo_kdf "s0" empty_db
    (register demo_kdf "s0" empty_db 1 "Ann" "a@b.cd" "mentee" "pw").2 1
    "Ann" "a@b.cd" "mentee" "pw"
    (register_row demo_kdf "s0" empty_db 1 "Ann" "a@b.cd" "mentee" "pw")
  refine ⟨h.1 (by rfl) (by decide), ?_, ?_⟩
  · exact (h.2 demo_db "nobody@example.com" "pw").1 (by rfl)
  · exact (h.2 demo_db "bob@example.com" "wrong").2 mentor_u (by rfl) (by decide)

/-- Witness for C10: Ann's created request lists Ann as the mentee and is
appended as the single new row. -/
theorem created_request_mentee_is_caller_witness :
    (request_row demo_db 7 mentee_u mentor_u "learn Y").mentee_id = mentee_u.id ∧
    (create_mentorship demo_db 7 mentee_u (some 1) "learn Y").2.requests
      = demo_db.requests ++ [request_row demo_db 7 mentee_u mentor_u "learn Y"] :=
  created_request_mentee_is_caller demo_db 7 mentee_u (some 1) "learn Y"
    (request_row demo_db 7 mentee_u mentor_u "learn Y")
    (create_mentorship demo_db 7 mentee_u (some 1) "learn Y").2 (by rfl)

/-- C6: the request listing contains exactly the requests in which the user
is the mentor or the mentee (same multiset as the filter over the table),
and it is ordered by creation time descending. -/
theorem my_requests_spec (db : DB) (u : User) :
    (my_requests db u).Perm
      (db.requests.filter (fun r => r.mentor_id == u.id || r.mentee_id == u.id)) ∧
    (∀ r, r ∈ my_requests db u ↔
      r ∈ db.requests ∧ (r.mentor_id = u.id ∨ r.mentee_id = u.id)) ∧
    (my_requests db u).Pairwise (fun a b => b.created_at ≤ a.created_at) := by
  have hperm := List.perm_insertionSort req_desc
    (db.requests.filter (fun r => r.mentor_id == u.id || r.mentee_id == u.id))
  refine ⟨hperm, ?_, ?_⟩
  · intro r
    rw [show my_requests db u = (db.requests.filter
        (fun r => r.mentor_id == u.id || r.mentee_id == u.id)).insertionSort req_desc
      from rfl]
    rw [hperm.mem_iff, List.mem_filter]
    simp
  · exact List.sorted_insertionSort req_desc
      (db.requests.filter (fun r => r.mentor_id == u.id || r.mentee_id == u.id))

/-- Witness for C6: Ann's dashboard listing contains the request she is
mentee of, and it is sorted. -/
theorem my_requests_spec_witness :
    declined_req ∈ my_requests demo_db2 mentee_u ∧
    (my_requests demo_db2 mentee_u).Pairwise
      (fun a b => b.created_at ≤ a.created_at) := by
  have h := my_requests_spec demo_db2 mentee_u
  exact ⟨(h.2.1 declined_req).mpr ⟨by decide, Or.inr (by decide)⟩, h.2.2⟩

/-- C9 (spec-modelled deletion path): deleting a request empties its message
listing, removes every one of its messages, and leaves the messages — hence
the listings — of every other request untouched. -/
theorem delete_request_cascades (db : DB) (rid : Nat) :
    list_messages (delete_request db rid) rid = [] ∧
    (∀ m ∈ db.messages, m.mentorship_id = rid →
      m ∉ (delete_request db rid).messages) ∧
    (∀ rid2, rid2 ≠ rid →
      list_messages (delete_request db rid) rid2 = list_messages db rid2) := by
  refine ⟨?_, ?_, ?_⟩
  · unfold list_messages delete_request
    rw [List.filter_filter]
    have hfalse : ∀ m : Message,
        ((m.mentorship_id == rid) && ! (m.mentorship_id == rid)) = false := by
      intro m
      cases hb : (m.mentorship_id == rid) <;> simp [hb]
    rw [List.filter_congr (fun m _ => hfalse m)]
    simp
  · intro m hm hmid
    unfold delete_request
    simp only [List.mem_filter]
    rintro ⟨-, habs⟩
    simp [hmid] at habs
  · intro rid2 hne
    unfold list_messages delete_request
    rw [List.filter_filter]
    congr 1
    apply List.filter_congr
    intro m _
    by_cases hb : m.mentorship_id = rid2
    · simp [hb, hne]
    · simp [hb]

/-- Witness for C9: deleting request 10 from the two-request store empties
its listing, drops its message, and leaves request 11's listing intact. -/
theorem delete_request_cascades_witness :
    list_messages (delete_request demo_db2 10) 10 = [] ∧
    msg_a ∉ (delete_request demo_db2 10).messages ∧
    list_messages (delete_request demo_db2 10) 11 = list_messages demo_db2 11 := by
  have h := delete_request_cascades demo_db2 10
  exact ⟨h.1, h.2.1 msg_a (by decide) (by decide), h.2.2 11 (by decide)⟩

/-- Helper: `post_message` never touches the request table. -/
theorem post_message_requests (db : DB) (now : Nat) (c : User) (rid : Nat)
    (b : String) : (post_message db now c rid b).2.requests = db.requests := by
  unfold post_message
  cases h : find_request db rid with
  | none => rfl
  | some req =>
    dsimp only
    split_ifs <;> rfl

/-- Helper: `post_message` either leaves the message table alone (on any
failure) or appends exactly one row. -/
theorem post_message_messages (db : DB) (now : Nat) (c : User) (rid : Nat)
    (b : String) :
    (post_message db now c rid b).2.messages = db.messages ∨
    ∃ m, (post_message db now c rid b).2.messages = db.messages ++ [m] := by
  unfold post_message
  cases h : find_request db rid with
  | none => exact Or.inl rfl
  | some req =>
    dsimp only
    split_ifs
    · exact Or.inl rfl
    · exact Or.inl rfl
    · exact Or.inr ⟨message_row db now c req b, rfl⟩

/-- Helper: the exact outcome of a valid `post_message`. -/
theorem post_message_ok_eq (db : DB) (now : Nat) (caller : User) (rid : Nat)
    (body : String) (req : MentorshipRequest)
    (hreq : find_request db rid = some req)
    (hpart : caller.id = req.mentor_id ∨ caller.id = req.mentee_id)
    (hbody : py_strip body ≠ "") :
    post_message db now caller rid body
      = (.ok (message_row db now caller req body),
         { db with messages := db.messages ++ [message_row db now caller req body],
                   next_message_id := db.next_message_id + 1 }) := by
  have hcond : ¬ (caller.id ≠ req.mentor_id ∧ caller.id ≠ req.mentee_id) := by
    rcases hpart with h | h
    · exact fun hand => hand.1 h
    · exact fun hand => hand.2 h
  unfold post_message
  rw [hreq]
  dsimp only
  rw [if_neg hcond, if_neg hbody]

/-- Helper: `accept_request` never touches the message table. -/
theorem accept_request_messages (db : DB) (c : User) (rid : Nat) :
    (accept_request db c rid).2.messages = db.messages := by
  unfold accept_request
  cases h : find_request db rid with
  | none => rfl
  | some req =>
    dsimp only
    split_ifs <;> rfl

/-- Helper: `decline_request` never touches the message table. -/
theorem decline_request_messages (db : DB) (c : User) (rid : Nat) :
    (decline_request db c rid).2.messages = db.messages := by
  unfold decline_request
  cases h : find_request db rid with
  | none => rfl
  | some req =>
    dsimp only
    split_ifs <;> rfl

/-- Helper: `complete_request` never touches the message table. -/
theorem complete_request_messages (db : DB) (c : User) (rid : Nat) :
    (complete_request db c rid).2.messages = db.messages := by
  unfold complete_request
  cases h : find_request db rid with
  | none => rfl
  | some req =>
    dsimp only
    split_ifs <;> rfl

/-- Helper: `register` never touches the message table. -/
theorem register_messages (kdf : KDF) (salt : String) (db : DB) (now : Nat)
    (n e r p : String) :
    (register kdf salt db now n e r p).2.messages = db.messages := by
  unfold register
  split_ifs <;> rfl

/-- Helper: `create_mentorship` never touches the message table. -/
theorem create_mentorship_messages (db : DB) (now : Nat) (c : User)
    (mo : Option Nat) (g : String) :
    (create_mentorship db now c mo g).2.messages = db.messages := by
  unfold create_mentorship
  cases mo with
  | none => rfl
  | some m =>
    dsimp only
    split_ifs
    · rfl
    · rfl
    · cases hf : find_user_by_id db m with
      | none => rfl
      | some mentor =>
        dsimp only
        split_ifs <;> rfl

/-- Helper: posting a sequence of valid messages to request `rid` appends
exactly their (time, trimmed body) projections to the request's message
rows, in order, and leaves the request table unchanged. -/
theorem post_all_filter (rid : Nat) (posts : List (Nat × User × String)) :
    ∀ (db : DB) (req : MentorshipRequest),
      find_request db rid = some req →
      (∀ p ∈ posts, (p.2.1.id = req.mentor_id ∨ p.2.1.id = req.mentee_id) ∧
        py_strip p.2.2 ≠ "") →
      ((post_all db rid posts).messages.filter
          (fun m => m.mentorship_id == rid)).map (fun m => (m.created_at, m.body))
        = (db.messages.filter (fun m => m.mentorship_id == rid)).map
            (fun m => (m.created_at, m.body))
          ++ posts.map (fun p => (p.1, py_strip p.2.2)) ∧
      (post_all db rid posts).requests = db.requests := by
  induction posts with
  | nil =>
    intro db req hreq hval
    simp [post_all]
  | cons p rest ih =>
    obtain ⟨now, sender, body⟩ := p
    intro db req hreq hval
    have hp := hval (now, sender, body) (List.mem_cons_self _ _)
    have hpost := post_message_ok_eq db now sender rid body req hreq hp.1 hp.2
    have hid : req.id = rid := find_request_id hreq
    have hreq2 : find_request (post_message db now sender rid body).2 rid = some req := by
      unfold find_request at hreq ⊢
      rw [post_message_requests]
      exact hreq
    have hih := ih (post_message db now sender rid body).2 req hreq2
      (fun q hq => hval q (List.mem_cons_of_mem _ hq))
    simp only [post_all]
    constructor
    · rw [hih.1]
      rw [hpost]
      dsimp only
      rw [List.filter_append, List.map_append]
      have hmsg : List.filter (fun m => m.mentorship_id == rid)
          [message_row db now sender req body] = [message_row db now sender req body] := by
        simp [message_row, hid]
      rw [hmsg]
      simp [message_row]
    · rw [hih.2, post_message_requests]

/-- C7: starting from a request with no messages, posting N valid messages
(participant senders, non-blank bodies, non-decreasing server times) makes
the listing return exactly those N messages in insertion order with
non-decreasing timestamps; and no operation of the application edits or
removes a stored message — the non-message operations leave the message
table unchanged, a post at most appends one row, and only the cascade of
`delete_request` removes rows, never touching other requests' messages. -/
theorem message_log_append_only (db : DB) (rid : Nat) (req : MentorshipRequest)
    (posts : List (Nat × User × String))
    (hreq : find_request db rid = some req)
    (hinit : db.messages.filter (fun m => m.mentorship_id == rid) = [])
    (hval : ∀ p ∈ posts, (p.2.1.id = req.mentor_id ∨ p.2.1.id = req.mentee_id) ∧
      py_strip p.2.2 ≠ "")
    (htimes : (posts.map (fun p => p.1)).Pairwise (· ≤ ·)) :
    (list_messages (post_all db rid posts) rid).length = posts.length ∧
    (list_messages (post_all db rid posts) rid).map (fun m => (m.created_at, m.body))
      = posts.map (fun p => (p.1, py_strip p.2.2)) ∧
    (list_messages (post_all db rid posts) rid).Pairwise
      (fun a b => a.created_at ≤ b.created_at) ∧
    (∀ (db2 : DB) (c : User) (r2 : Nat),
      (accept_request db2 c r2).2.messages = db2.messages) ∧
    (∀ (db2 : DB) (c : User) (r2 : Nat),
      (decline_request db2 c r2).2.messages = db2.messages) ∧
    (∀ (db2 : DB) (c : User) (r2 : Nat),
      (complete_request db2 c r2).2.messages = db2.messages) ∧
    (∀ (kdf : KDF) (salt : String) (db2 : DB) (now : Nat) (n e r p : String),
      (register kdf salt db2 now n e r p).2.messages = db2.messages) ∧
    (∀ (db2 : DB) (now : Nat) (c : User) (mo : Option Nat) (g : String),
      (create_mentorship db2 now c mo g).2.messages = db2.messages) ∧
    (∀ (db2 : DB) (now : Nat) (c : User) (r2 : Nat) (b : String),
      (post_message db2 now c r2 b).2.messages = db2.messages ∨
      ∃ m, (post_message db2 now c r2 b).2.messages = db2.messages ++ [m]) ∧
    (∀ (db2 : DB) (r2 : Nat) (m : Message), m ∈ db2.messages → m.mentorship_id ≠ r2 →
      m ∈ (delete_request db2 r2).messages) := by
  have hproj : ((post_all db rid posts).messages.filter
      (fun m => m.mentorship_id == rid)).map (fun m => (m.created_at, m.body))
      = posts.map (fun p => (p.1, py_strip p.2.2)) := by
    have h := (post_all_filter rid posts db req hreq hval).1
    rw [hinit] at h
    simpa using h
  have htimes2 : ((post_all db rid posts).messages.filter
      (fun m => m.mentorship_id == rid)).map (fun m => m.created_at)
      = posts.map (fun p => p.1) := by
    have h := congrArg (List.map Prod.fst) hproj
    simpa [List.map_map, Function.comp] using h
  have hsorted : ((post_all db rid posts).messages.filter
      (fun m => m.mentorship_id == rid)).Pairwise msg_asc := by
    have hp : (((post_all db rid posts).messages.filter
        (fun m => m.mentorship_id == rid)).map (fun m => m.created_at)).Pairwise
        (· ≤ ·) := by
      rw [htimes2]
      exact htimes
    rw [List.pairwise_map] at hp
    exact hp
  have hlist : list_messages (post_all db rid posts) rid
      = (post_all db rid posts).messages.filter (fun m => m.mentorship_id == rid) :=
    List.Sorted.insertionSort_eq hsorted
  refine ⟨?_, ?_, ?_, accept_request_messages, decline_request_messages,
    complete_request_messages, register_messages, create_mentorship_messages,
    post_message_messages, ?_⟩
  · rw [hlist]
    have h := congrArg List.length hproj
    simpa using h
  · rw [hlist]
    exact hproj
  · rw [hlist]
    exact hsorted
  · intro db2 r2 m hm hne
    unfold delete_request
    exact List.mem_filter.mpr ⟨hm, by simp [hne]⟩

/-- Witness for C7: Ann posts "hi" at time 6, Bob posts " hello " at time 7;
the listing has the two trimmed messages in order. -/
theorem message_log_append_only_witness :
    (list_messages (post_all demo_db 10 [(6, mentee_u, "hi"), (7, mentor_u, " hello ")])
        10).length = 2 ∧
    (list_messages (post_all demo_db 10 [(6, mentee_u, "hi"), (7, mentor_u, " hello ")])
        10).map (fun m => (m.created_at, m.body)) = [(6, "hi"), (7, "hello")] := by
  have h := message_log_append_only demo_db 10 declined_req
    [(6, mentee_u, "hi"), (7, mentor_u, " hello ")]
    (by decide) (by decide) (by decide) (by decide)
  exact ⟨h.1, h.2.1⟩

end Mentorship
